import Mathlib

set_option maxRecDepth 10000

/-!
Shallow embedding of the cinema ticketing core
(`src/cinema/cinema_manager.py`, `src/cinema/movie.py`,
`src/cinema/ticket.py`) and proofs about it.

Modelling conventions:
* Python lists become Lean `List`s (appends at the end, first-match scans
  become `List.find?` / head recursion, `del` of the first match becomes
  first-occurrence removal).
* Currency amounts and ratings are modelled as `ℚ`; the source only adds,
  subtracts, halves and compares them.
* `random.choice` and `datetime.now()` are external effects; they are
  modelled by an `Env` of oracle streams together with a cursor `pos`
  carried in the manager state, advanced on each `purchase`.
* Seat arguments are modelled as `String`; `str(seat_number)` on a string
  is the identity.
* `print` diagnostics are ignored (pure return values only).
-/

namespace Cinema

/-- `Movie` from `movie.py`: title, duration, genre, price, plus the
mutable `rating` (initially 0) and ordered `reviews`. -/
structure Movie where
  title : String
  duration : Int
  genre : String
  price : ℚ
  rating : ℚ
  reviews : List String
deriving DecidableEq

/-- `Movie.__init__`: sets the four constructor fields and initialises
`rating := 0`, `reviews := []`. -/
def mkMovie (title : String) (duration : Int) (genre : String) (price : ℚ) : Movie :=
  { title := title, duration := duration, genre := genre, price := price,
    rating := 0, reviews := [] }

/-- `Movie.add_review`: appends the text and recomputes
`rating := (rating + new) / 2`. -/
def Movie.add_review (m : Movie) (review_text : String) (rating : ℚ) : Movie :=
  { m with reviews := m.reviews ++ [review_text],
           rating := (m.rating + rating) / 2 }

/-- `Movie.is_expensive`: true iff price strictly exceeds 10. -/
def Movie.is_expensive (m : Movie) : Bool :=
  m.price > 10

/-- Iterated `add_review` over a list of (text, rating) pairs. -/
def Movie.addReviews (m : Movie) : List (String × ℚ) → Movie
  | [] => m
  | (t, r) :: rest => (m.add_review t r).addReviews rest

/-- `Ticket` from `ticket.py`.  `ticket_id` and `purchase_date` are `none`
until `purchase`; `purchase_date` stores an opaque clock sample. -/
structure Ticket where
  movie : Movie
  seat_number : String
  showtime : String
  ticket_id : Option String
  purchase_date : Option Nat
  customer_name : String
  is_used : Bool
deriving DecidableEq

/-- `Ticket.__init__`. -/
def Ticket.init (movie : Movie) (seat_number : String) (showtime : String) : Ticket :=
  { movie := movie, seat_number := seat_number, showtime := showtime,
    ticket_id := none, purchase_date := none, customer_name := "",
    is_used := false }

/-- The oracle streams standing for `random.choice` outcomes and
`datetime.now()` samples. -/
structure Env where
  rand : Nat → Nat
  time : Nat → Nat

/-- `string.ascii_letters + string.digits`: the 62-character alphabet
ticket ids are drawn from. -/
def idAlphabet : List Char :=
  "abcdefghijklmnopqrstuvwxyzABCDEFGHIJKLMNOPQRSTUVWXYZ0123456789".toList

/-- `Ticket.generate_ticket_id`: 10 `random.choice` draws from
`idAlphabet`, concatenated.  Draw `pos + i` is the i-th call to the RNG. -/
def generate_ticket_id (env : Env) (pos : Nat) : String :=
  String.mk ((List.range 10).map fun i =>
    idAlphabet.getD (env.rand (pos + i) % idAlphabet.length) 'a')

/-- `Ticket.purchase`: sets the customer name, stamps the current time and
generates a fresh ticket id; returns the updated ticket and the advanced
oracle cursor. -/
def Ticket.purchase (env : Env) (pos : Nat) (t : Ticket) (customer_name : String) :
    Ticket × Nat :=
  ({ t with customer_name := customer_name,
            purchase_date := some (env.time pos),
            ticket_id := some (generate_ticket_id env pos) },
   pos + 10)

/-- `Ticket.use_ticket`: fails if already used, otherwise flips `is_used`.
Returns the boolean result together with the (possibly updated) ticket. -/
def Ticket.use_ticket (t : Ticket) : Bool × Ticket :=
  if t.is_used then (false, t) else (true, { t with is_used := true })

/-- `CinemaManager` state.  `pos` is the oracle cursor (number of external
RNG/clock samples consumed so far), not a Python attribute. -/
structure CinemaManager where
  movies : List Movie
  tickets : List Ticket
  available_seats : List String
  total_revenue : ℚ
  pos : Nat
deriving DecidableEq

/-- The seat grid built by `CinemaManager.__init__`: rows 1..10, seats
1..20, row-major, identifiers `"<row>-<seat>"`. -/
def initSeats : List String :=
  (List.range' 1 10).flatMap fun row =>
    (List.range' 1 20).map fun seat => toString row ++ "-" ++ toString seat

/-- `CinemaManager.__init__`. -/
def CinemaManager.init : CinemaManager :=
  { movies := [], tickets := [], available_seats := initSeats,
    total_revenue := 0, pos := 0 }

/-- `CinemaManager.add_movie`: constructs a movie, appends it to the
catalog, returns it. -/
def CinemaManager.add_movie (m : CinemaManager) (title : String) (duration : Int)
    (genre : String) (price : ℚ) : Movie × CinemaManager :=
  let movie := mkMovie title duration genre price
  (movie, { m with movies := m.movies ++ [movie] })

/-- `CinemaManager.find_movie`: first catalog entry with the given title. -/
def CinemaManager.find_movie (m : CinemaManager) (title : String) : Option Movie :=
  m.movies.find? fun movie => decide (movie.title = title)

/-- `CinemaManager.sell_ticket`: resolve the movie, check seat
availability, purchase a ticket, remove the first occurrence of the seat,
append the ticket and add the price to the revenue. -/
def CinemaManager.sell_ticket (m : CinemaManager) (env : Env)
    (movie_title seat_number showtime customer_name : String) :
    Option Ticket × CinemaManager :=
  match m.find_movie movie_title with
  | none => (none, m)
  | some movie =>
    let seat_str := seat_number
    if seat_str ∈ m.available_seats then
      let tp := Ticket.purchase env m.pos (Ticket.init movie seat_number showtime)
        customer_name
      (some tp.1,
       { m with available_seats := m.available_seats.erase seat_str,
                tickets := m.tickets ++ [tp.1],
                total_revenue := m.total_revenue + movie.price,
                pos := tp.2 })
    else
      (none, m)

/-- `CinemaManager.get_ticket_by_id`: first ticket whose id equals the
argument (`None == tid` is false in Python, hence `some`). -/
def CinemaManager.get_ticket_by_id (m : CinemaManager) (tid : String) : Option Ticket :=
  m.tickets.find? fun t => decide (t.ticket_id = some tid)

/-- The first-match deletion loop inside `refund_ticket`. -/
def removeTicketById : List Ticket → String → List Ticket
  | [], _ => []
  | t :: ts, tid => if t.ticket_id = some tid then ts else t :: removeTicketById ts tid

/-- `CinemaManager.refund_ticket`: fails on a missing or used ticket;
otherwise re-adds the seat, subtracts the price and removes the first
ticket with the given id. -/
def CinemaManager.refund_ticket (m : CinemaManager) (tid : String) :
    Bool × CinemaManager :=
  match m.get_ticket_by_id tid with
  | none => (false, m)
  | some t =>
    if t.is_used then (false, m)
    else
      (true,
       { m with available_seats := m.available_seats ++ [t.seat_number],
                total_revenue := m.total_revenue - t.movie.price,
                tickets := removeTicketById m.tickets tid })

/-- Calling `use_ticket` on the ticket object at position `i` of the
manager's list (every listed ticket is a reference some caller holds). -/
def CinemaManager.useTicketAt (m : CinemaManager) (i : Nat) : CinemaManager :=
  match m.tickets.get? i with
  | none => m
  | some t => { m with tickets := m.tickets.set i (Ticket.use_ticket t).2 }

/-- One caller-visible operation on the manager. -/
inductive Op where
  | addMovie (title : String) (duration : Int) (genre : String) (price : ℚ)
  | sellTicket (movie_title seat_number showtime customer_name : String)
  | refundTicket (tid : String)
  | useTicket (i : Nat)

/-- Execute one operation (discarding the returned value). -/
def step (env : Env) (m : CinemaManager) : Op → CinemaManager
  | .addMovie title duration genre price => (m.add_movie title duration genre price).2
  | .sellTicket mt sn st cn => (m.sell_ticket env mt sn st cn).2
  | .refundTicket tid => (m.refund_ticket tid).2
  | .useTicket i => m.useTicketAt i

/-- Execute a sequence of operations. -/
def run (env : Env) (m : CinemaManager) : List Op → CinemaManager
  | [] => m
  | op :: ops => run env (step env m op) ops

/-- A concrete oracle environment, used to instantiate universally
quantified statements. -/
def env0 : Env :=
  { rand := fun _ => 0, time := fun _ => 0 }

/-- The run-time invariant of the manager: the seat grid is partitioned
between the available set and the listed tickets, the revenue equals the
sum of the listed tickets' prices, and every listed ticket is purchased. -/
def Inv (m : CinemaManager) : Prop :=
  (m.available_seats ++ m.tickets.map Ticket.seat_number).Perm initSeats
  ∧ m.total_revenue = (m.tickets.map fun t => t.movie.price).sum
  ∧ ∀ t ∈ m.tickets,
      (∃ s, t.ticket_id = some s ∧ s.length = 10) ∧ t.purchase_date ≠ none

/-! ### Concrete fixtures (used to instantiate theorems) -/

/-- A concrete movie. -/
def mvW : Movie := mkMovie "A" 90 "Drama" 10

/-- A small manager state holding `mvW` and two free seats. -/
def mgrW : CinemaManager :=
  { movies := [mvW], tickets := [], available_seats := ["1-5", "2-3"],
    total_revenue := 0, pos := 0 }

/-- A concrete purchased, unused ticket for `mvW`. -/
def tkR : Ticket :=
  { movie := mvW, seat_number := "1-5", showtime := "19:00",
    ticket_id := some "ABCDEFGHIJ", purchase_date := some 0,
    customer_name := "Ann", is_used := false }

/-- A manager state holding the sold ticket `tkR`. -/
def mgr2 : CinemaManager :=
  { movies := [mvW], tickets := [tkR], available_seats := ["2-3"],
    total_revenue := 10, pos := 10 }

/-- A never-purchased ticket. -/
def tkFresh : Ticket := Ticket.init mvW "1-1" "19:00"

/-- A concrete operation sequence: add a movie, then sell one ticket. -/
def opsW : List Op :=
  [Op.addMovie "A" 90 "Drama" 10, Op.sellTicket "A" "1-1" "19:00" "Ann"]

/-- The ticket produced by running `opsW` under `env0`. -/
def tkW : Ticket :=
  { movie := mkMovie "A" 90 "Drama" 10, seat_number := "1-1", showtime := "19:00",
    ticket_id := some "aaaaaaaaaa", purchase_date := some 0,
    customer_name := "Ann", is_used := false }

/-! ### Helper lemmas -/

lemma generate_ticket_id_length (env : Env) (pos : Nat) :
    (generate_ticket_id env pos).length = 10 := by
  simp [generate_ticket_id, String.length]

lemma mem_removeTicketById {l : List Ticket} {tid : String} {x : Ticket}
    (h : x ∈ removeTicketById l tid) : x ∈ l := by
  induction l with
  | nil => simp [removeTicketById] at h
  | cons t ts ih =>
    by_cases ht : t.ticket_id = some tid
    · simp only [removeTicketById, if_pos ht] at h
      exact List.mem_cons_of_mem _ h
    · simp only [removeTicketById, if_neg ht, List.mem_cons] at h
      rcases h with h | h
      · exact h ▸ List.mem_cons_self _ _
      · exact List.mem_cons_of_mem _ (ih h)

lemma perm_removeTicketById {l : List Ticket} {tid : String} {t : Ticket}
    (h : l.find? (fun u => decide (u.ticket_id = some tid)) = some t) :
    l.Perm (t :: removeTicketById l tid) := by
  induction l with
  | nil => simp [List.find?] at h
  | cons a as ih =>
    by_cases ha : a.ticket_id = some tid
    · rw [List.find?_cons_of_pos _ (by simp [ha])] at h
      injection h with h
      subst h
      simp [removeTicketById, ha]
    · rw [List.find?_cons_of_neg _ (by simp [ha])] at h
      have h2 : removeTicketById (a :: as) tid = a :: removeTicketById as tid := by
        simp [removeTicketById, ha]
      rw [h2]
      exact ((ih h).cons a).trans (List.Perm.swap t a _)

lemma map_set_eq {α β : Type} (f : α → β) :
    ∀ (l : List α) (i : Nat) (a b : α), l.get? i = some a → f b = f a →
      (l.set i b).map f = l.map f
  | [], _, _, _, h, _ => by simp [List.get?] at h
  | x :: xs, 0, a, b, h, hf => by
      injection h with h
      subst h
      simp [List.set, hf]
  | x :: xs, i + 1, a, b, h, hf => by
      have h' : xs.get? i = some a := h
      have := map_set_eq f xs i a b h' hf
      simp [List.set, this]

lemma use_ticket_seat (t : Ticket) :
    (Ticket.use_ticket t).2.seat_number = t.seat_number := by
  cases ht : t.is_used <;> simp [Ticket.use_ticket, ht]

lemma use_ticket_price (t : Ticket) :
    (Ticket.use_ticket t).2.movie.price = t.movie.price := by
  cases ht : t.is_used <;> simp [Ticket.use_ticket, ht]

lemma use_ticket_id (t : Ticket) :
    (Ticket.use_ticket t).2.ticket_id = t.ticket_id := by
  cases ht : t.is_used <;> simp [Ticket.use_ticket, ht]

lemma use_ticket_date (t : Ticket) :
    (Ticket.use_ticket t).2.purchase_date = t.purchase_date := by
  cases ht : t.is_used <;> simp [Ticket.use_ticket, ht]

lemma use_ticket_showtime (t : Ticket) :
    (Ticket.use_ticket t).2.showtime = t.showtime := by
  cases ht : t.is_used <;> simp [Ticket.use_ticket, ht]

lemma use_ticket_customer (t : Ticket) :
    (Ticket.use_ticket t).2.customer_name = t.customer_name := by
  cases ht : t.is_used <;> simp [Ticket.use_ticket, ht]

lemma perm_seat_sell {A X : List String} {sn : String} (hs : sn ∈ A) :
    (A.erase sn ++ (X ++ [sn])).Perm (A ++ X) := by
  refine (List.Perm.append_left _ (List.perm_append_singleton sn X)).trans ?_
  have h1 : A.erase sn ++ (sn :: X) = (A.erase sn ++ [sn]) ++ X := by
    simp
  rw [h1]
  exact ((List.Perm.append_right X (List.perm_append_singleton sn (A.erase sn))).trans
    (List.Perm.append_right X (List.perm_cons_erase hs).symm))

lemma inv_init : Inv CinemaManager.init := by
  refine ⟨?_, ?_, ?_⟩ <;> simp [CinemaManager.init]

lemma inv_step {m : CinemaManager} (env : Env) (op : Op) (h : Inv m) :
    Inv (step env m op) := by
  obtain ⟨hperm, hrev, htk⟩ := h
  cases op with
  | addMovie title duration genre price =>
    exact ⟨hperm, hrev, htk⟩
  | sellTicket mt sn st cn =>
    simp only [step, CinemaManager.sell_ticket]
    split
    · exact ⟨hperm, hrev, htk⟩
    · next movie hf =>
      by_cases hs : sn ∈ m.available_seats
      · rw [if_pos hs]
        refine ⟨?_, ?_, ?_⟩
        · rw [List.map_append]
          have hseat : (Ticket.purchase env m.pos (Ticket.init movie sn st) cn).1.seat_number
              = sn := by
            simp [Ticket.purchase, Ticket.init]
          simp only [List.map_cons, List.map_nil, hseat]
          exact (perm_seat_sell hs).trans hperm
        · have hprice : (Ticket.purchase env m.pos (Ticket.init movie sn st) cn).1.movie.price
              = movie.price := by
            simp [Ticket.purchase, Ticket.init]
          simp [List.map_append, hprice, hrev]
        · intro x hx
          rcases List.mem_append.mp hx with hx | hx
          · exact htk x hx
          · have hx' : x = (Ticket.purchase env m.pos (Ticket.init movie sn st) cn).1 := by
              simpa using hx
            subst hx'
            exact ⟨⟨generate_ticket_id env m.pos, by simp [Ticket.purchase, Ticket.init],
              generate_ticket_id_length env m.pos⟩, by simp [Ticket.purchase, Ticket.init]⟩
      · rw [if_neg hs]
        exact ⟨hperm, hrev, htk⟩
  | refundTicket tid =>
    simp only [step, CinemaManager.refund_ticket]
    split
    · exact ⟨hperm, hrev, htk⟩
    · next t hf =>
      by_cases hu : t.is_used
      · rw [if_pos hu]
        exact ⟨hperm, hrev, htk⟩
      · rw [if_neg hu]
        have hp : m.tickets.Perm (t :: removeTicketById m.tickets tid) :=
          perm_removeTicketById hf
        refine ⟨?_, ?_, ?_⟩
        · have hmap := hp.map Ticket.seat_number
          rw [List.map_cons] at hmap
          have h1 : (m.available_seats ++ [t.seat_number])
                ++ (removeTicketById m.tickets tid).map Ticket.seat_number
              = m.available_seats
                ++ (t.seat_number :: (removeTicketById m.tickets tid).map Ticket.seat_number) := by
            simp
          rw [h1]
          exact ((List.Perm.append_left m.available_seats hmap.symm)).trans hperm
        · have hsum := (hp.map fun u => u.movie.price).sum_eq
          rw [List.map_cons, List.sum_cons] at hsum
          rw [hrev, hsum]
          ring
        · intro x hx
          exact htk x (mem_removeTicketById hx)
  | useTicket i =>
    simp only [step, CinemaManager.useTicketAt]
    split
    · exact ⟨hperm, hrev, htk⟩
    · next t hg =>
      refine ⟨?_, ?_, ?_⟩
      · rw [map_set_eq Ticket.seat_number m.tickets i t _ hg (use_ticket_seat t)]
        exact hperm
      · rw [map_set_eq (fun u => u.movie.price) m.tickets i t _ hg (use_ticket_price t)]
        exact hrev
      · intro x hx
        rcases List.mem_or_eq_of_mem_set hx with hx | hx
        · exact htk x hx
        · subst hx
          have ht := htk t (List.get?_mem hg)
          exact ⟨(use_ticket_id t).symm ▸ ht.1, (use_ticket_date t).symm ▸ ht.2⟩

lemma inv_run (env : Env) (ops : List Op) {m : CinemaManager} (h : Inv m) :
    Inv (run env m ops) := by
  induction ops generalizing m with
  | nil => exact h
  | cons op ops ih => exact ih (inv_step env op h)

lemma run_tickets_origin (env : Env) (ops : List Op) :
    ∀ (m : CinemaManager) (t : Ticket), t ∈ (run env m ops).tickets →
      (∃ u ∈ m.tickets, u.seat_number = t.seat_number ∧ u.showtime = t.showtime
        ∧ u.customer_name = t.customer_name)
      ∨ ∃ mt sn st cn, Op.sellTicket mt sn st cn ∈ ops
          ∧ t.seat_number = sn ∧ t.showtime = st ∧ t.customer_name = cn := by
  induction ops with
  | nil =>
    intro m t h
    exact Or.inl ⟨t, h, rfl, rfl, rfl⟩
  | cons op ops ih =>
    intro m t h
    rcases ih (step env m op) t h with ⟨u, hu, h1, h2, h3⟩ | ⟨mt, sn, st, cn, hop, hrest⟩
    · cases op with
      | addMovie title duration genre price =>
        exact Or.inl ⟨u, hu, h1, h2, h3⟩
      | sellTicket mt sn st cn =>
        revert hu
        simp only [step, CinemaManager.sell_ticket]
        split
        · intro hu
          exact Or.inl ⟨u, hu, h1, h2, h3⟩
        · next movie hf =>
          by_cases hs : sn ∈ m.available_seats
          · rw [if_pos hs]
            intro hu
            rcases List.mem_append.mp hu with hu | hu
            · exact Or.inl ⟨u, hu, h1, h2, h3⟩
            · have hu' : u = (Ticket.purchase env m.pos (Ticket.init movie sn st) cn).1 := by
                simpa using hu
              right
              refine ⟨mt, sn, st, cn, List.mem_cons_self _ _, ?_, ?_, ?_⟩
              · rw [← h1, hu']
                simp [Ticket.purchase, Ticket.init]
              · rw [← h2, hu']
                simp [Ticket.purchase, Ticket.init]
              · rw [← h3, hu']
                simp [Ticket.purchase, Ticket.init]
          · rw [if_neg hs]
            intro hu
            exact Or.inl ⟨u, hu, h1, h2, h3⟩
      | refundTicket tid =>
        revert hu
        simp only [step, CinemaManager.refund_ticket]
        split
        · intro hu
          exact Or.inl ⟨u, hu, h1, h2, h3⟩
        · next tf hf =>
          by_cases hused : tf.is_used
          · rw [if_pos hused]
            intro hu
            exact Or.inl ⟨u, hu, h1, h2, h3⟩
          · rw [if_neg hused]
            intro hu
            exact Or.inl ⟨u, mem_removeTicketById hu, h1, h2, h3⟩
      | useTicket i =>
        revert hu
        simp only [step, CinemaManager.useTicketAt]
        split
        · intro hu
          exact Or.inl ⟨u, hu, h1, h2, h3⟩
        · next tg hg =>
          intro hu
          rcases List.mem_or_eq_of_mem_set hu with hu | hu
          · exact Or.inl ⟨u, hu, h1, h2, h3⟩
          · subst hu
            refine Or.inl ⟨tg, List.get?_mem hg, ?_, ?_, ?_⟩
            · rw [← h1, use_ticket_seat]
            · rw [← h2, use_ticket_showtime]
            · rw [← h3, use_ticket_customer]
    · exact Or.inr ⟨mt, sn, st, cn, List.mem_cons_of_mem _ hop, hrest⟩

lemma initSeats_nodup : initSeats.Nodup := by decide

lemma addReviews_rating (rs : List (String × ℚ)) :
    ∀ m : Movie,
      (m.addReviews rs).rating = rs.foldl (fun acc r => (acc + r.2) / 2) m.rating := by
  induction rs with
  | nil => intro m; rfl
  | cons p rest ih =>
    intro m
    cases p with
    | mk t r => simp [Movie.addReviews, Movie.add_review, List.foldl, ih]

lemma addReviews_reviews (rs : List (String × ℚ)) :
    ∀ m : Movie, (m.addReviews rs).reviews = m.reviews ++ rs.map Prod.fst := by
  induction rs with
  | nil => intro m; simp [Movie.addReviews]
  | cons p rest ih =>
    intro m
    cases p with
    | mk t r => simp [Movie.addReviews, Movie.add_review, ih]

/-! ### Claim theorems -/

/-- Claim C1: after every sequence of operations from a freshly
constructed manager, every seat identifier of the 10x20 grid is a member
of the available-seat list or is the seat_number of some ticket in the
ticket list, and never both. -/
theorem claim_C1 (env : Env) (ops : List Op) (seat : String) (h : seat ∈ initSeats) :
    (seat ∈ (run env CinemaManager.init ops).available_seats
      ∨ ∃ t ∈ (run env CinemaManager.init ops).tickets, t.seat_number = seat)
    ∧ ¬(seat ∈ (run env CinemaManager.init ops).available_seats
      ∧ ∃ t ∈ (run env CinemaManager.init ops).tickets, t.seat_number = seat) := by
  obtain ⟨hperm, -, -⟩ := inv_run env ops inv_init (m := CinemaManager.init)
  set m := run env CinemaManager.init ops with hm
  have hcount : List.count seat (m.available_seats ++ m.tickets.map Ticket.seat_number) = 1 := by
    rw [hperm.count_eq]
    exact List.count_eq_one_of_mem initSeats_nodup h
  rw [List.count_append] at hcount
  have hmap : (seat ∈ m.tickets.map Ticket.seat_number)
      ↔ ∃ t ∈ m.tickets, t.seat_number = seat := by
    simp [List.mem_map]
  constructor
  · by_cases ha : seat ∈ m.available_seats
    · exact Or.inl ha
    · right
      rw [← hmap]
      have h0 : List.count seat m.available_seats = 0 := List.count_eq_zero.mpr ha
      refine List.count_pos_iff.mp ?_
      omega
  · rintro ⟨ha, hex⟩
    have h1 : 0 < List.count seat m.available_seats := List.count_pos_iff.mpr ha
    have h2 : 0 < List.count seat (m.tickets.map Ticket.seat_number) :=
      List.count_pos_iff.mpr (hmap.mpr hex)
    omega

/-- Witness for C1: the seat "1-1" on the freshly constructed manager. -/
theorem claim_C1_witness :
    "1-1" ∈ initSeats
    ∧ (("1-1" ∈ (run env0 CinemaManager.init []).available_seats
        ∨ ∃ t ∈ (run env0 CinemaManager.init []).tickets, t.seat_number = "1-1")
      ∧ ¬("1-1" ∈ (run env0 CinemaManager.init []).available_seats
        ∧ ∃ t ∈ (run env0 CinemaManager.init []).tickets, t.seat_number = "1-1")) :=
  ⟨by decide, claim_C1 env0 [] "1-1" (by decide)⟩

/-- Claim C2: after every sequence of operations from a freshly
constructed manager, total_revenue equals the sum of movie prices over the
tickets currently in the ticket list. -/
theorem claim_C2 (env : Env) (ops : List Op) :
    (run env CinemaManager.init ops).total_revenue
      = ((run env CinemaManager.init ops).tickets.map fun t => t.movie.price).sum :=
  (inv_run env ops inv_init).2.1

/-- Claim C10: after every sequence of operations from a freshly
constructed manager, every ticket in the ticket list carries a 10-character
ticket id, a purchase date, and the customer name passed at the sale that
created it (together with that sale's seat and showtime): only purchased
tickets ever enter the list. -/
theorem claim_C10 (env : Env) (ops : List Op) (t : Ticket)
    (h : t ∈ (run env CinemaManager.init ops).tickets) :
    (∃ s, t.ticket_id = some s ∧ s.length = 10) ∧ t.purchase_date ≠ none
    ∧ ∃ mt sn st cn, Op.sellTicket mt sn st cn ∈ ops
        ∧ t.seat_number = sn ∧ t.showtime = st ∧ t.customer_name = cn := by
  have hinv := (inv_run env ops inv_init).2.2 t h
  rcases run_tickets_origin env ops CinemaManager.init t h with ⟨u, hu, -⟩ | horig
  · simp [CinemaManager.init] at hu
  · exact ⟨hinv.1, hinv.2, horig⟩

/-- Witness for C10: the ticket produced by selling seat "1-1". -/
theorem claim_C10_witness :
    tkW ∈ (run env0 CinemaManager.init opsW).tickets
    ∧ ((∃ s, tkW.ticket_id = some s ∧ s.length = 10) ∧ tkW.purchase_date ≠ none
      ∧ ∃ mt sn st cn, Op.sellTicket mt sn st cn ∈ opsW
          ∧ tkW.seat_number = sn ∧ tkW.showtime = st ∧ tkW.customer_name = cn) :=
  ⟨by decide, claim_C10 env0 opsW tkW (by decide)⟩

/-- Claim C3: when the movie resolves and the seat is available,
sell_ticket removes exactly that one seat (first occurrence; every other
seat's multiplicity is untouched), appends one purchased ticket bound to
the movie, seat, showtime and customer, adds the movie's price to the
revenue and returns the new ticket. -/
theorem claim_C3 (m : CinemaManager) (env : Env)
    (mt sn st cn other : String) (movie : Movie)
    (hm : m.find_movie mt = some movie) (hs : sn ∈ m.available_seats)
    (hne : other ≠ sn) :
    ∃ t : Ticket,
      m.sell_ticket env mt sn st cn =
        (some t,
         { m with available_seats := m.available_seats.erase sn,
                  tickets := m.tickets ++ [t],
                  total_revenue := m.total_revenue + movie.price,
                  pos := m.pos + 10 })
      ∧ t.movie = movie ∧ t.seat_number = sn ∧ t.showtime = st ∧ t.customer_name = cn
      ∧ List.count sn (m.available_seats.erase sn) = List.count sn m.available_seats - 1
      ∧ List.count other (m.available_seats.erase sn) = List.count other m.available_seats := by
  refine ⟨(Ticket.purchase env m.pos (Ticket.init movie sn st) cn).1, ?_, ?_, ?_, ?_, ?_, ?_, ?_⟩
  · unfold CinemaManager.sell_ticket
    rw [hm]
    simp [hs, Ticket.purchase]
  · simp [Ticket.purchase, Ticket.init]
  · simp [Ticket.purchase, Ticket.init]
  · simp [Ticket.purchase, Ticket.init]
  · simp [Ticket.purchase, Ticket.init]
  · exact List.count_erase_self sn m.available_seats
  · exact List.count_erase_of_ne hne m.available_seats

/-- Witness for C3: selling seat "1-5" for movie "A" on `mgrW`. -/
theorem claim_C3_witness :
    ∃ t : Ticket,
      mgrW.sell_ticket env0 "A" "1-5" "19:00" "Ann" =
        (some t,
         { mgrW with available_seats := mgrW.available_seats.erase "1-5",
                     tickets := mgrW.tickets ++ [t],
                     total_revenue := mgrW.total_revenue + mvW.price,
                     pos := mgrW.pos + 10 })
      ∧ t.movie = mvW ∧ t.seat_number = "1-5" ∧ t.showtime = "19:00" ∧ t.customer_name = "Ann"
      ∧ List.count "1-5" (mgrW.available_seats.erase "1-5")
          = List.count "1-5" mgrW.available_seats - 1
      ∧ List.count "2-3" (mgrW.available_seats.erase "1-5")
          = List.count "2-3" mgrW.available_seats :=
  claim_C3 mgrW env0 "A" "1-5" "19:00" "Ann" "2-3" mvW (by decide) (by decide) (by decide)

/-- Claim C4: sell_ticket with an unknown movie title or an unavailable
seat returns the not-found sentinel and leaves the manager unchanged. -/
theorem claim_C4 (m : CinemaManager) (env : Env) (mt sn st cn : String)
    (h : m.find_movie mt = none ∨ sn ∉ m.available_seats) :
    m.sell_ticket env mt sn st cn = (none, m) := by
  rcases h with h | h
  · simp [CinemaManager.sell_ticket, h]
  · cases hf : m.find_movie mt with
    | none => simp [CinemaManager.sell_ticket, hf]
    | some movie => simp [CinemaManager.sell_ticket, hf, h]

/-- Witness for C4: selling for an unknown movie title on the fresh
manager fails without side effects. -/
theorem claim_C4_witness :
    CinemaManager.init.sell_ticket env0 "Nope" "1-1" "19:00" "Ann"
      = (none, CinemaManager.init) :=
  claim_C4 CinemaManager.init env0 "Nope" "1-1" "19:00" "Ann" (Or.inl rfl)

/-- Claim C5: refunding an unused listed ticket succeeds, re-appends its
seat to the available list, subtracts its movie's price from the revenue
and removes the first id-matching ticket; the detached ticket value is
exactly the one found, its own fields untouched. -/
theorem claim_C5 (m : CinemaManager) (tid : String) (t : Ticket)
    (hm : m.get_ticket_by_id tid = some t) (hu : t.is_used = false) :
    m.refund_ticket tid =
      (true,
       { m with available_seats := m.available_seats ++ [t.seat_number],
                total_revenue := m.total_revenue - t.movie.price,
                tickets := removeTicketById m.tickets tid })
    ∧ m.tickets.Perm (t :: removeTicketById m.tickets tid) := by
  refine ⟨?_, perm_removeTicketById hm⟩
  unfold CinemaManager.refund_ticket
  rw [hm]
  simp [hu]

/-- Witness for C5: refunding the ticket `tkR` held by `mgr2`. -/
theorem claim_C5_witness :
    mgr2.refund_ticket "ABCDEFGHIJ" =
      (true,
       { mgr2 with available_seats := mgr2.available_seats ++ [tkR.seat_number],
                   total_revenue := mgr2.total_revenue - tkR.movie.price,
                   tickets := removeTicketById mgr2.tickets "ABCDEFGHIJ" })
    ∧ mgr2.tickets.Perm (tkR :: removeTicketById mgr2.tickets "ABCDEFGHIJ") :=
  claim_C5 mgr2 "ABCDEFGHIJ" tkR (by decide) (by decide)

/-- Claim C6: refunding an unknown ticket id, or a used ticket, returns
False and leaves the manager (and the ticket) unchanged. -/
theorem claim_C6 (m : CinemaManager) (tid : String)
    (h : m.get_ticket_by_id tid = none
      ∨ ∃ t, m.get_ticket_by_id tid = some t ∧ t.is_used = true) :
    m.refund_ticket tid = (false, m) := by
  rcases h with h | ⟨t, hm, hu⟩
  · simp [CinemaManager.refund_ticket, h]
  · simp [CinemaManager.refund_ticket, hm, hu]

/-- Witness for C6: refunding an unknown id on the fresh manager. -/
theorem claim_C6_witness :
    CinemaManager.init.refund_ticket "XYZXYZXYZ0" = (false, CinemaManager.init) :=
  claim_C6 CinemaManager.init "XYZXYZXYZ0" (Or.inl rfl)

/-- Claim C7: for every movie (constructed with rating 0) and every review
sequence, the final rating is the left fold ((...((0+r1)/2+r2)/2...)+rn)/2
and the texts are appended in order; ratings 5, 4, 3 give
0, 2.5, 3.25, 3.125. -/
theorem claim_C7 :
    (∀ (title : String) (duration : Int) (genre : String) (price : ℚ)
        (rs : List (String × ℚ)),
      ((mkMovie title duration genre price).addReviews rs).rating
          = rs.foldl (fun acc r => (acc + r.2) / 2) 0
      ∧ ((mkMovie title duration genre price).addReviews rs).reviews
          = rs.map Prod.fst)
    ∧ (mkMovie "M" 100 "Drama" 10).rating = 0
    ∧ ((mkMovie "M" 100 "Drama" 10).add_review "a" 5).rating = 5/2
    ∧ (((mkMovie "M" 100 "Drama" 10).add_review "a" 5).add_review "b" 4).rating = 13/4
    ∧ ((((mkMovie "M" 100 "Drama" 10).add_review "a" 5).add_review "b" 4).add_review
        "c" 3).rating = 25/8 := by
  refine ⟨fun title duration genre price rs => ⟨?_, ?_⟩, ?_, ?_, ?_, ?_⟩
  · rw [addReviews_rating rs (mkMovie title duration genre price)]
    rfl
  · rw [addReviews_reviews rs (mkMovie title duration genre price)]
    rfl
  · rfl
  · norm_num [Movie.add_review, mkMovie]
  · norm_num [Movie.add_review, mkMovie]
  · norm_num [Movie.add_review, mkMovie]

/-- Claim C8: the freshly constructed manager has exactly the 200 distinct
row-major seat identifiers (index i holds row i/20+1, seat i%20+1), an
empty catalog, an empty ticket list and zero revenue. -/
theorem claim_C8 :
    CinemaManager.init.available_seats.length = 200
    ∧ CinemaManager.init.available_seats.Nodup
    ∧ CinemaManager.init.available_seats
        = (List.range 200).map
            (fun i => toString (i / 20 + 1) ++ "-" ++ toString (i % 20 + 1))
    ∧ CinemaManager.init.movies = []
    ∧ CinemaManager.init.tickets = []
    ∧ CinemaManager.init.total_revenue = 0 :=
  ⟨by decide, initSeats_nodup, by decide, rfl, rfl, rfl⟩

/-- Claim C9: use_ticket succeeds and sets is_used whenever the ticket is
unused (purchased or not), fails with no change when already used; hence
of two consecutive calls the first succeeds and the second fails. -/
theorem claim_C9 (t : Ticket) :
    (t.is_used = false → t.use_ticket = (true, { t with is_used := true }))
    ∧ (t.is_used = true → t.use_ticket = (false, t))
    ∧ (t.is_used = false →
        (t.use_ticket).2.use_ticket = (false, (t.use_ticket).2)
        ∧ ((t.use_ticket).2).is_used = true) := by
  refine ⟨fun h => ?_, fun h => ?_, fun h => ?_⟩
  · simp [Ticket.use_ticket, h]
  · simp [Ticket.use_ticket, h]
  · simp [Ticket.use_ticket, h]

/-- Witness for C9: a never-purchased ticket can be used once and only
once. -/
theorem claim_C9_witness :
    tkFresh.use_ticket = (true, { tkFresh with is_used := true })
    ∧ (tkFresh.use_ticket).2.use_ticket = (false, (tkFresh.use_ticket).2) :=
  ⟨(claim_C9 tkFresh).1 rfl, ((claim_C9 tkFresh).2.2 rfl).1⟩

end Cinema
